import Mathlib

/-!
Shallow embedding of the `middlewares` Go package (request logger, roundtrip
dump middleware, header rewrite middlewares) and proofs about the claims of
its specification.

Modelling conventions:
* Go byte slices are `List Nat` (each element a byte value).  Go strings are
  byte strings; response/request bodies are therefore kept as `List Nat`,
  while header names and values (ASCII in all claims) use Lean `String`.
* `http.Header` (a Go map from canonical header name to a slice of values)
  is an association list with unique keys; Go map-iteration order is
  unspecified, and every property proved here is order-independent.
* The real `http.ResponseWriter` supplied by the `net/http` server is an
  external collaborator; it is modelled by `RealWriter` below, following the
  documented `net/http` contract (an implicit `WriteHeader(200)` on the
  first body write, subsequent `WriteHeader` calls ignored).  Transport
  failures (client gone) are modelled by the `acceptLimit` field.
* `compress/gzip` is an external library; it is modelled for the subset the
  claims exercise: header parsing as `gzip.NewReader` does it (magic bytes,
  compression method, flag fields; the optional FHCRC digest is skipped but
  not verified), and DEFLATE decoding of stored (uncompressed) blocks.
  Huffman-compressed blocks and multi-member streams are treated as decode
  errors; no claim depends on an input using them.
-/

namespace Middlewares

/-- A Go `http.Header`: map from (canonical) header name to list of values,
modelled as an association list with unique keys. -/
abbrev Header := List (String × List String)

namespace Header

/-- Go map indexing `h[k]`: the stored value slice, `nil` (empty) if absent. -/
def getList (h : Header) (k : String) : List String :=
  match h.lookup k with
  | some vs => vs
  | none => []

/-- Go `http.Header.Get`: first value for the key, `""` if none. -/
def get (h : Header) (k : String) : String :=
  match h.lookup k with
  | some (v :: _) => v
  | _ => ""

/-- Go map assignment `h[k] = vs`: replace the entry if the key is present,
otherwise add it. -/
def set (h : Header) (k : String) (vs : List String) : Header :=
  match h with
  | [] => [(k, vs)]
  | (k', vs') :: t => if k' = k then (k, vs) :: t else (k', vs') :: set t k vs

end Header

/-- A consumable byte stream with a read position: models a Go
`io.ReadCloser` request body (`data` are the underlying bytes, `pos` how far
reading has advanced). -/
structure BodyStream where
  data : List Nat
  pos : Nat
deriving Repr, DecidableEq

/-- The `ioutil.ReadAll` on a body stream: read everything from the current
position to the end, leaving the stream exhausted.  (On an in-memory stream
no read error occurs; `ioutil.ReadAll` always returns a non-nil slice.) -/
def BodyStream.readAll (s : BodyStream) : List Nat × BodyStream :=
  (s.data.drop s.pos, { s with pos := s.data.length })

/-- A fresh in-memory stream over the given bytes:
`ioutil.NopCloser(bytes.NewBuffer(b))`. -/
def BodyStream.ofBytes (b : List Nat) : BodyStream :=
  { data := b, pos := 0 }

/-- The inbound `*http.Request` fields the package touches. -/
structure Request where
  method : String
  requestURI : String
  proto : String
  header : Header
  body : BodyStream
deriving Repr, DecidableEq

/-- The real `http.ResponseWriter` provided by the `net/http` server
(external collaborator).  `header` is the mutable `Header()` map,
`sentStatus` the status line actually sent on the wire (none until the
first `WriteHeader`, explicit or implicit), `wire` the body bytes delivered
to the client.  `acceptLimit` models the transport: `none` means every
write is accepted; `some m` means the connection fails (write error, no
bytes accepted) as soon as a write would push the wire beyond `m` bytes. -/
structure RealWriter where
  header : Header
  sentStatus : Option Nat
  wire : List Nat
  acceptLimit : Option Nat
deriving Repr, DecidableEq

namespace RealWriter

/-- The `net/http` `WriteHeader`: the first call sets the wire status; later
calls are superfluous and ignored. -/
def writeHeader (w : RealWriter) (status : Nat) : RealWriter :=
  match w.sentStatus with
  | none => { w with sentStatus := some status }
  | some _ => w

/-- The `net/http` `Write`: an implicit `WriteHeader(200)` happens before the
first body byte; then the transport either accepts the whole chunk
(returning its length) or fails with a write error accepting nothing.
Result: (new writer, bytes accepted, error?). -/
def write (w : RealWriter) (b : List Nat) : RealWriter × Nat × Bool :=
  let w := w.writeHeader 200
  match w.acceptLimit with
  | some m =>
    if w.wire.length + b.length ≤ m then
      ({ w with wire := w.wire ++ b }, b.length, false)
    else
      (w, 0, true)
  | none => ({ w with wire := w.wire ++ b }, b.length, false)

end RealWriter

/-- The `ResponseSnifferingWriter`: wraps the real writer, tees written bytes
into `bytesBuffer`, records the last explicitly written status in `status`
(Go zero value 0 until `WriteHeader` is called). -/
structure ResponseSnifferingWriter where
  real : RealWriter
  bytesBuffer : List Nat
  status : Nat
deriving Repr, DecidableEq

/-- The `NewResponseSnifferingWriter`: fresh empty buffer, zero status; the
multi-writer tees to (buffer, real writer) in that order. -/
def NewResponseSnifferingWriter (realWriter : RealWriter) : ResponseSnifferingWriter :=
  { real := realWriter, bytesBuffer := [], status := 0 }

namespace ResponseSnifferingWriter

/-- The `Header()` override: pass-through to the wrapped writer's header map. -/
def headerMap (w : ResponseSnifferingWriter) : Header :=
  w.real.header

/-- The `WriteHeader` override: record the status verbatim, then forward. -/
def writeHeader (w : ResponseSnifferingWriter) (status : Nat) : ResponseSnifferingWriter :=
  { w with status := status, real := w.real.writeHeader status }

/-- The `Write` override: `io.MultiWriter(BytesBuffer, realWriter).Write(b)`.
`io.MultiWriter` writes to each writer in order, stopping at the first
error or short write: the in-memory buffer always accepts everything, then
the real writer is written; its error (or a short write, impossible in this
transport model) is returned.  Result: (new writer, n, error?). -/
def write (w : ResponseSnifferingWriter) (b : List Nat) :
    ResponseSnifferingWriter × Nat × Bool :=
  let buffered := w.bytesBuffer ++ b
  let (rw, n, err) := w.real.write b
  if err then ({ w with bytesBuffer := buffered, real := rw }, n, true)
  else if n < b.length then ({ w with bytesBuffer := buffered, real := rw }, n, true)
  else ({ w with bytesBuffer := buffered, real := rw }, n, false)

end ResponseSnifferingWriter

/-! ### Model of `compress/gzip` (external library)

`gzip.NewReader` parses and validates only the member header; DEFLATE
decoding happens at `Read` time.  The model below covers stored
(uncompressed) DEFLATE blocks; Huffman-coded blocks and multi-member
streams are treated as decode errors (no claim exercises them). -/

/-- One round of the reflected CRC-32 bit loop (polynomial 0xEDB88320). -/
def crc32Round (c : Nat) : Nat :=
  if c % 2 = 1 then (c / 2) ^^^ 0xEDB88320 else c / 2

/-- Feed one byte into a CRC-32 accumulator. -/
def crc32UpdateByte (crc b : Nat) : Nat :=
  crc32Round^[8] (crc ^^^ b % 256)

/-- CRC-32 (IEEE) of a byte sequence, as `hash/crc32` computes it. -/
def crc32 (bs : List Nat) : Nat :=
  (bs.foldl crc32UpdateByte 0xFFFFFFFF) ^^^ 0xFFFFFFFF

/-- A DEFLATE bit-stream position: remaining bytes, and how many bits of
the head byte are already consumed (0..7); DEFLATE packs bits LSB-first. -/
structure BitState where
  bytes : List Nat
  bit : Nat
deriving Repr, DecidableEq

/-- Read one bit (LSB-first within each byte). -/
def readBit (s : BitState) : Option (Nat × BitState) :=
  match s.bytes with
  | [] => none
  | b :: t =>
    let v := (b >>> s.bit) % 2
    if s.bit = 7 then some (v, ⟨t, 0⟩) else some (v, ⟨b :: t, s.bit + 1⟩)

/-- Read `n` bits, first-read bit least significant. -/
def readBits : Nat → BitState → Option (Nat × BitState)
  | 0, s => some (0, s)
  | n + 1, s => do
    let (v, s1) ← readBit s
    let (rest, s2) ← readBits n s1
    some (v + 2 * rest, s2)

/-- Discard the rest of a partially consumed byte (stored blocks are
byte-aligned). -/
def alignByte (s : BitState) : BitState :=
  if s.bit = 0 then s else { bytes := s.bytes.tail, bit := 0 }

/-- Take `n` whole bytes from a byte-aligned position. -/
def takeBytes (n : Nat) (s : BitState) : Option (List Nat × BitState) :=
  if s.bytes.length < n then none
  else some (s.bytes.take n, { bytes := s.bytes.drop n, bit := 0 })

/-- DEFLATE decoding, stored blocks only.  Returns the decompressed output
together with `some` byte-aligned remainder if the stream completed
cleanly, or `none` on a decode error (output so far is still returned, as
the partial result a Go `Read` loop would have produced).  `fuel` bounds
the number of blocks; each block consumes at least one byte. -/
def inflate : Nat → BitState → List Nat × Option BitState
  | 0, _ => ([], none)
  | fuel + 1, s =>
    match readBits 3 s with
    | none => ([], none)
    | some (hdr, s1) =>
      let bfinal := hdr % 2
      let btype := hdr / 2
      if btype = 0 then
        match takeBytes 4 (alignByte s1) with
        | some ([l0, l1, n0, n1], s3) =>
          let len := l0 + 256 * l1
          let nlen := n0 + 256 * n1
          if nlen = 0xFFFF ^^^ len then
            match takeBytes len s3 with
            | some (data, s4) =>
              if bfinal = 1 then (data, some s4)
              else
                let (rest, r) := inflate fuel s4
                (data ++ rest, r)
            | none => (s3.bytes, none)
          else ([], none)
        | _ => ([], none)
      else ([], none)

/-- Skip bytes up to and past the first zero byte (a gzip header's
null-terminated FNAME/FCOMMENT field). -/
def skipUntilZero : List Nat → Option (List Nat)
  | [] => none
  | b :: t => if b = 0 then some t else skipUntilZero t

/-- Parse a gzip member header as `gzip.NewReader` does: 10 fixed bytes
(magic 0x1f 0x8b, compression method 8, flags, mtime, xfl, os), then the
optional FEXTRA / FNAME / FCOMMENT / FHCRC fields selected by the flag
byte (the FHCRC digest bytes are skipped; the model does not verify them).
Returns the bytes after the header, or `none` on a header error. -/
def gzipParseHeader (b : List Nat) : Option (List Nat) :=
  match b with
  | m0 :: m1 :: cm :: flg :: _t0 :: _t1 :: _t2 :: _t3 :: _xfl :: _os :: rest =>
    if m0 = 0x1f ∧ m1 = 0x8b ∧ cm = 8 then do
      let rest ←
        if flg.testBit 2 then
          match rest with
          | x0 :: x1 :: r =>
            let xlen := x0 + 256 * x1
            if r.length < xlen then none else some (r.drop xlen)
          | _ => none
        else some rest
      let rest ← if flg.testBit 3 then skipUntilZero rest else some rest
      let rest ← if flg.testBit 4 then skipUntilZero rest else some rest
      let rest ←
        if flg.testBit 1 then
          match rest with
          | _c0 :: _c1 :: r => some r
          | _ => none
        else some rest
      some rest
    else none
  | _ => none

/-- The `gzip.NewReader`: validates the member header; `none` is the
constructor error (which the dump code discards, leaving a nil reader). -/
def gzipNewReader (b : List Nat) : Option (List Nat) :=
  gzipParseHeader b

/-- The `ioutil.ReadAll` over a successfully constructed gzip reader: the
decompressed bytes, with any read error (truncation, checksum mismatch,
unsupported block) discarded — exactly what the dump code keeps. -/
def gzipReadAll (payload : List Nat) : List Nat :=
  (inflate (payload.length + 1) { bytes := payload, bit := 0 }).1

/-- A byte sequence is a fully valid single-member gzip stream
decompressing to `out`: header parses, the DEFLATE stream decodes cleanly,
and exactly the 8 trailer bytes remain, carrying the CRC-32 of `out` and
`out`'s length mod 2^32 (both little-endian). -/
def gzipValid (b : List Nat) : Option (List Nat) :=
  match gzipNewReader b with
  | none => none
  | some payload =>
    match inflate (payload.length + 1) { bytes := payload, bit := 0 } with
    | (out, some s) =>
      if s.bit = 0 then
        match s.bytes with
        | [c0, c1, c2, c3, i0, i1, i2, i3] =>
          if c0 + 256 * c1 + 65536 * c2 + 16777216 * c3 = crc32 out ∧
             i0 + 256 * i1 + 65536 * i2 + 16777216 * i3 = out.length % 4294967296 then
            some out
          else none
        | _ => none
      else none
    | (_, none) => none

/-! ### Roundtrip dump data model and capture functions -/

/-- The `RequestDump`: snapshot of an HTTP request (body is a Go string, i.e.
a byte sequence). -/
structure RequestDump where
  method : String
  target : String
  protocol : String
  headers : Header
  body : List Nat
deriving Repr, DecidableEq

/-- The `ResponseDump`: snapshot of an HTTP response; headers flattened to a
single string per key. -/
structure ResponseDump where
  headers : List (String × String)
  body : List Nat
  statusCode : Nat
deriving Repr, DecidableEq

/-- The `RoundtripDump`: timestamp plus the two snapshots. -/
structure RoundtripDump where
  timestamp : Nat
  request : RequestDump
  response : ResponseDump
deriving Repr, DecidableEq

/-- The header-flattening loop of `dumpResponse`: start from `""` and
append every value in order, no separator. -/
def joinValues (vs : List String) : String :=
  vs.foldl (fun acc v => acc ++ v) ""

/-- The `dumpRequest`: read the whole body (`ioutil.ReadAll`, which on these
in-memory streams returns a non-nil slice, so the replacement branch
always runs), install a fresh stream over the same bytes as the new body,
and snapshot method/target/protocol/headers/body.  Returns the snapshot
and the request as the downstream handler receives it. -/
def dumpRequest (r : Request) : RequestDump × Request :=
  let (bodyBuf, _) := r.body.readAll
  let r2 := { r with body := BodyStream.ofBytes bodyBuf }
  ({ method := r.method, target := r.requestURI, protocol := r.proto,
     headers := r.header, body := bodyBuf }, r2)

/-- The `dumpResponse`: take the real writer's header map and the sniffed
bytes; if `Content-Encoding` is `gzip`, replace the reader by
`gzip.NewReader`'s result with the error discarded — on a header error the
reader is nil and the following `ioutil.ReadAll(reader)` dereferences it,
a panic modelled as `none`.  Otherwise (and after a successful gzip
construction) read everything, discarding any read error, and flatten each
header's values into one string. -/
def dumpResponse (sw : ResponseSnifferingWriter) : Option ResponseDump :=
  let headers := sw.real.header
  let b := sw.bytesBuffer
  let decoded : Option (List Nat) :=
    if headers.get "Content-Encoding" = "gzip" then
      match gzipNewReader b with
      | some payload => some (gzipReadAll payload)
      | none => none
    else some b
  match decoded with
  | none => none
  | some body =>
    some { headers := headers.map (fun kv => (kv.1, joinValues kv.2)),
           body := body,
           statusCode := sw.status }

/-! ### Downstream handlers and the dump middleware shell

A downstream handler is modelled as the sequence of operations it performs
on the response writer it is given (mutating the `Header()` map, calling
`WriteHeader`, writing body chunks); a handler that ignores a write error
simply continues with the next action, as the interpreters do. -/

/-- One operation a downstream handler performs on its response writer. -/
inductive HandlerAction where
  | setHeader (k : String) (vs : List String)
  | writeHeader (status : Nat)
  | write (b : List Nat)
deriving Repr, DecidableEq

/-- Run a handler against a `ResponseSnifferingWriter`. -/
def runHandlerSniffer (acts : List HandlerAction) (sw : ResponseSnifferingWriter) :
    ResponseSnifferingWriter :=
  acts.foldl
    (fun sw a =>
      match a with
      | .setHeader k vs => { sw with real := { sw.real with header := sw.real.header.set k vs } }
      | .writeHeader st => sw.writeHeader st
      | .write b => (sw.write b).1)
    sw

/-- Run a handler directly against the real writer (the OPTIONS path). -/
def runHandlerReal (acts : List HandlerAction) (w : RealWriter) : RealWriter :=
  acts.foldl
    (fun w a =>
      match a with
      | .setHeader k vs => { w with header := w.header.set k vs }
      | .writeHeader st => w.writeHeader st
      | .write b => (w.write b).1)
    w

/-- One request through `NewDumpMiddleware(dumpAction)(next)`: non-OPTIONS
requests get a fresh sniffing writer, the request is snapshotted (and its
body restored), the handler runs, the response is snapshotted, and the
assembled record is handed to the sink (`go dumpAction(&dump)`) — modelled
as `some record` in the result.  A panic inside `dumpResponse` aborts the
request with no record (`none` overall).  OPTIONS requests run the handler
on the bare writer and never produce a record.  `now` is the clock value
`time.Now()` reads.  Result: `some (final real writer, sink argument)`. -/
def dumpMiddlewareRun (next : List HandlerAction) (r : Request) (w : RealWriter)
    (now : Nat) : Option (RealWriter × Option RoundtripDump) :=
  if r.method ≠ "OPTIONS" then
    let sw := NewResponseSnifferingWriter w
    let requestData := (dumpRequest r).1
    -- the handler is invoked with the restored request (dumpRequest r).2
    let sw2 := runHandlerSniffer next sw
    match dumpResponse sw2 with
    | none => none
    | some responseData =>
      some (sw2.real, some { timestamp := now, request := requestData, response := responseData })
  else
    some (runHandlerReal next w, none)

/-! ### Header rewrite middlewares -/

/-- The `castToHeader`: build an `http.Header` from the configuration map,
one singleton value list per key. -/
def castToHeader (c : List (String × String)) : Header :=
  c.foldl (fun acc kv => acc.set kv.1 [kv.2]) []

/-- The `castToHeaderForRequest`: like `castToHeader`, except that the entry
`Access-Control-Allow-Origin: *` is replaced by the request's `Origin`
header value slice (empty when the request carries no `Origin`). -/
def castToHeaderForRequest (c : List (String × String)) (r : Request) : Header :=
  c.foldl
    (fun acc kv =>
      if kv.1 = "Access-Control-Allow-Origin" ∧ kv.2 = "*" then
        acc.set kv.1 (r.header.getList "Origin")
      else
        acc.set kv.1 [kv.2])
    []

/-- The per-request loop of `NewRequestHeaderWriteMiddlwware`: every
configured header overwrites the request's entry for that key. -/
def requestHeaderRewrite (headers : List (String × String)) (r : Request) : Request :=
  { r with header := (castToHeader headers).foldl (fun acc kv => acc.set kv.1 kv.2) r.header }

/-- The `rewriteResponseWriter`: wraps the real writer with a per-request
overlay applied when headers are finalized. -/
structure RewriteResponseWriter where
  real : RealWriter
  rewriteHeader : Header
deriving Repr, DecidableEq

namespace RewriteResponseWriter

/-- The `Header()` override: pass-through. -/
def headerMap (w : RewriteResponseWriter) : Header :=
  w.real.header

/-- The `Write` override: pass-through to the real writer. -/
def write (w : RewriteResponseWriter) (b : List Nat) : RewriteResponseWriter × Nat × Bool :=
  let (rw, n, err) := w.real.write b
  ({ w with real := rw }, n, err)

/-- The `WriteHeader` override: set every overlay entry onto the header map
(replacing same-named entries), then, if `Access-Control-Allow-Origin` now
has at least one value and `Access-Control-Allow-Headers` has none, inject
`Access-Control-Allow-Headers: *`; finally forward the status. -/
def writeHeader (w : RewriteResponseWriter) (statusCode : Nat) : RewriteResponseWriter :=
  let h := w.rewriteHeader.foldl (fun acc kv => acc.set kv.1 kv.2) w.real.header
  let h :=
    if 0 < (h.getList "Access-Control-Allow-Origin").length ∧
        (h.getList "Access-Control-Allow-Headers").length = 0 then
      h.set "Access-Control-Allow-Headers" ["*"]
    else h
  { w with real := RealWriter.writeHeader { w.real with header := h } statusCode }

end RewriteResponseWriter

/-! ### Helper lemmas about the writer state machines -/

theorem Header.lookup_set_self (h : Header) (k : String) (vs : List String) :
    List.lookup k (h.set k vs) = some vs := by
  induction h with
  | nil => simp [Header.set, List.lookup]
  | cons kv t ih =>
    obtain ⟨k', vs'⟩ := kv
    by_cases hk : k' = k
    · subst hk
      simp [Header.set, List.lookup]
    · simp [Header.set, hk, List.lookup, beq_eq_false_iff_ne.mpr (Ne.symm hk), ih]

theorem Header.lookup_set_other (h : Header) (k k' : String) (vs : List String)
    (hne : k' ≠ k) : List.lookup k' (h.set k vs) = List.lookup k' h := by
  induction h with
  | nil => simp [Header.set, List.lookup, beq_eq_false_iff_ne.mpr hne]
  | cons kv t ih =>
    obtain ⟨k₀, vs₀⟩ := kv
    by_cases hk : k₀ = k
    · subst hk
      simp [Header.set, List.lookup, beq_eq_false_iff_ne.mpr hne]
    · by_cases hk' : k' = k₀
      · simp [Header.set, hk, List.lookup, hk']
      · simp [Header.set, hk, List.lookup, beq_eq_false_iff_ne.mpr hk', ih]

theorem Header.getList_set_self (h : Header) (k : String) (vs : List String) :
    (h.set k vs).getList k = vs := by
  simp [Header.getList, Header.lookup_set_self]

theorem Header.getList_set_other (h : Header) (k k' : String) (vs : List String)
    (hne : k' ≠ k) : (h.set k vs).getList k' = h.getList k' := by
  simp [Header.getList, Header.lookup_set_other h k k' vs hne]

namespace RealWriter

theorem writeHeader_header (w : RealWriter) (st : Nat) :
    (w.writeHeader st).header = w.header := by
  cases h : w.sentStatus <;> simp [writeHeader, h]

theorem writeHeader_wire (w : RealWriter) (st : Nat) :
    (w.writeHeader st).wire = w.wire := by
  cases h : w.sentStatus <;> simp [writeHeader, h]

theorem writeHeader_acceptLimit (w : RealWriter) (st : Nat) :
    (w.writeHeader st).acceptLimit = w.acceptLimit := by
  cases h : w.sentStatus <;> simp [writeHeader, h]

/-- The `writeHeader` only touches the `sentStatus` field (keeping an existing
status, taking the new one otherwise). -/
theorem writeHeader_eq (w : RealWriter) (st : Nat) :
    w.writeHeader st = { w with sentStatus := some (w.sentStatus.getD st) } := by
  cases w with
  | mk hd ss wi al => cases ss <;> simp [writeHeader]

theorem write_header (w : RealWriter) (b : List Nat) :
    (w.write b).1.header = w.header := by
  unfold write
  rw [writeHeader_eq]
  cases hal : w.acceptLimit with
  | none => simp [hal]
  | some m => by_cases hle : w.wire.length + b.length ≤ m <;> simp [hal, hle]

/-- On a transport that accepts everything, a write appends to the wire,
reports the full length, and raises no error. -/
theorem write_accept (w : RealWriter) (b : List Nat) (h : w.acceptLimit = none) :
    (w.write b).1.wire = w.wire ++ b ∧ (w.write b).1.header = w.header ∧
    (w.write b).1.acceptLimit = none ∧ (w.write b).2.1 = b.length ∧
    (w.write b).2.2 = false := by
  unfold write
  rw [writeHeader_eq]
  simp [h]

/-- A write never lies about success: when no error is reported, the whole
chunk was accepted onto the wire. -/
theorem write_success_wire (w : RealWriter) (b : List Nat)
    (h : (w.write b).2.2 = false) : (w.write b).1.wire = w.wire ++ b := by
  unfold write at h ⊢
  rw [writeHeader_eq] at h ⊢
  cases hal : w.acceptLimit with
  | none => simp [hal]
  | some m =>
    by_cases hle : w.wire.length + b.length ≤ m
    · simp [hal, hle]
    · rw [hal] at h
      simp [hle] at h

/-- When a write reports no error it accepted the full chunk length. -/
theorem write_success_len (w : RealWriter) (b : List Nat)
    (h : (w.write b).2.2 = false) : (w.write b).2.1 = b.length := by
  unfold write at h ⊢
  rw [writeHeader_eq] at h ⊢
  cases hal : w.acceptLimit with
  | none => simp [hal]
  | some m =>
    by_cases hle : w.wire.length + b.length ≤ m
    · simp [hal, hle]
    · rw [hal] at h
      simp [hle] at h

end RealWriter

namespace ResponseSnifferingWriter

/-- The state after a sniffer write: the chunk lands in the capture buffer
unconditionally (the multi-writer writes the in-memory buffer first), and
the real writer advances by its own `write`. -/
theorem write_state (sw : ResponseSnifferingWriter) (b : List Nat) :
    (sw.write b).1 =
      { sw with bytesBuffer := sw.bytesBuffer ++ b, real := (sw.real.write b).1 } := by
  unfold write
  rcases h : sw.real.write b with ⟨rw, n, err⟩
  cases err <;> by_cases hn : n < b.length <;> simp [h, hn]

/-- The sniffer write's reported error: the real writer's error, or a
short-write error when the real writer under-reports (impossible in this
transport model, but the `io.MultiWriter` check is faithful). -/
theorem write_err (sw : ResponseSnifferingWriter) (b : List Nat) :
    (sw.write b).2.2 =
      ((sw.real.write b).2.2 || decide ((sw.real.write b).2.1 < b.length)) := by
  unfold write
  rcases h : sw.real.write b with ⟨rw, n, err⟩
  cases err <;> by_cases hn : n < b.length <;> simp [h, hn]

end ResponseSnifferingWriter

/-- Running any handler over the sniffer on an always-accepting transport
grows the wire and the capture buffer by the same byte sequence (and keeps
the transport always-accepting). -/
theorem runHandlerSniffer_tee (acts : List HandlerAction) :
    ∀ sw : ResponseSnifferingWriter, sw.real.acceptLimit = none →
      ∃ extra,
        (runHandlerSniffer acts sw).bytesBuffer = sw.bytesBuffer ++ extra ∧
        (runHandlerSniffer acts sw).real.wire = sw.real.wire ++ extra ∧
        (runHandlerSniffer acts sw).real.acceptLimit = none := by
  induction acts with
  | nil => intro sw h; exact ⟨[], by simp [runHandlerSniffer], by simp [runHandlerSniffer], by simpa [runHandlerSniffer] using h⟩
  | cons a t ih =>
    intro sw h
    cases a with
    | setHeader k vs =>
      obtain ⟨extra, h1, h2, h3⟩ :=
        ih { sw with real := { sw.real with header := sw.real.header.set k vs } } (by simpa using h)
      exact ⟨extra, by simpa [runHandlerSniffer, List.foldl] using h1,
        by simpa [runHandlerSniffer, List.foldl] using h2,
        by simpa [runHandlerSniffer, List.foldl] using h3⟩
    | writeHeader st =>
      obtain ⟨extra, h1, h2, h3⟩ :=
        ih (sw.writeHeader st)
          (by simpa [ResponseSnifferingWriter.writeHeader, RealWriter.writeHeader_acceptLimit] using h)
      refine ⟨extra, ?_, ?_, ?_⟩
      · simpa [runHandlerSniffer, List.foldl, ResponseSnifferingWriter.writeHeader] using h1
      · rw [show (runHandlerSniffer (HandlerAction.writeHeader st :: t) sw) = runHandlerSniffer t (sw.writeHeader st) from rfl]
        rw [h2]
        simp [ResponseSnifferingWriter.writeHeader, RealWriter.writeHeader_wire]
      · simpa [runHandlerSniffer, List.foldl] using h3
    | write b =>
      obtain ⟨hw, -, hal, -, -⟩ := RealWriter.write_accept sw.real b h
      obtain ⟨extra, h1, h2, h3⟩ :=
        ih ((sw.write b).1) (by rw [ResponseSnifferingWriter.write_state]; simpa using hal)
      refine ⟨b ++ extra, ?_, ?_, ?_⟩
      · rw [show (runHandlerSniffer (HandlerAction.write b :: t) sw) = runHandlerSniffer t ((sw.write b).1) from rfl]
        rw [h1, ResponseSnifferingWriter.write_state]
        simp
      · rw [show (runHandlerSniffer (HandlerAction.write b :: t) sw) = runHandlerSniffer t ((sw.write b).1) from rfl]
        rw [h2, ResponseSnifferingWriter.write_state]
        simp [hw]
      · simpa [runHandlerSniffer, List.foldl] using h3

/-! ### Claim theorems -/

/-- C5: for every request body B (including the empty one), after
`dumpRequest` has read B, the downstream handler receives a body that is a
fresh stream over exactly B (readable in full from the start), and the
snapshot's body equals B. -/
theorem dumpRequest_restores_body (r : Request) (h : r.body.pos = 0) :
    (dumpRequest r).2.body = BodyStream.ofBytes r.body.data ∧
    (dumpRequest r).2.body.readAll.1 = r.body.data ∧
    (dumpRequest r).1.body = r.body.data := by
  simp [dumpRequest, BodyStream.readAll, BodyStream.ofBytes, h]

/-- Witness for C5 at a concrete two-byte body. -/
theorem dumpRequest_restores_body_witness :
    (⟨"GET", "/x", "HTTP/1.1", [], ⟨[104, 105], 0⟩⟩ : Request).body.pos = 0 ∧
    ((dumpRequest ⟨"GET", "/x", "HTTP/1.1", [], ⟨[104, 105], 0⟩⟩).2.body =
        BodyStream.ofBytes (⟨"GET", "/x", "HTTP/1.1", [], ⟨[104, 105], 0⟩⟩ : Request).body.data ∧
      (dumpRequest ⟨"GET", "/x", "HTTP/1.1", [], ⟨[104, 105], 0⟩⟩).2.body.readAll.1 =
        (⟨"GET", "/x", "HTTP/1.1", [], ⟨[104, 105], 0⟩⟩ : Request).body.data ∧
      (dumpRequest ⟨"GET", "/x", "HTTP/1.1", [], ⟨[104, 105], 0⟩⟩).1.body =
        (⟨"GET", "/x", "HTTP/1.1", [], ⟨[104, 105], 0⟩⟩ : Request).body.data) :=
  ⟨rfl, dumpRequest_restores_body _ rfl⟩

/-- C4: over an always-accepting transport with a fresh wire, after any
downstream handler runs through the sniffing writer, the bytes the client
observed equal the capture buffer's contents (the chunks concatenated in
write order). -/
theorem sniffer_wire_eq_buffer (acts : List HandlerAction) (w : RealWriter)
    (hal : w.acceptLimit = none) (hwire : w.wire = []) :
    (runHandlerSniffer acts (NewResponseSnifferingWriter w)).real.wire =
      (runHandlerSniffer acts (NewResponseSnifferingWriter w)).bytesBuffer := by
  obtain ⟨extra, h1, h2, -⟩ :=
    runHandlerSniffer_tee acts (NewResponseSnifferingWriter w)
      (by simpa [NewResponseSnifferingWriter] using hal)
  rw [h1, h2]
  simp [NewResponseSnifferingWriter, hwire]

/-- Witness for C4: two writes with a header mutation in between. -/
theorem sniffer_wire_eq_buffer_witness :
    (⟨[], none, [], none⟩ : RealWriter).acceptLimit = none ∧
    (⟨[], none, [], none⟩ : RealWriter).wire = [] ∧
    (runHandlerSniffer [.write [1], .setHeader "X" ["y"], .write [2, 3]]
        (NewResponseSnifferingWriter ⟨[], none, [], none⟩)).real.wire =
      (runHandlerSniffer [.write [1], .setHeader "X" ["y"], .write [2, 3]]
        (NewResponseSnifferingWriter ⟨[], none, [], none⟩)).bytesBuffer :=
  ⟨rfl, rfl, sniffer_wire_eq_buffer [.write [1], .setHeader "X" ["y"], .write [2, 3]] _ rfl rfl⟩

/-- C3 counterexample: with a transport that rejects the write, the
sniffer's `Write` reports the failure (error `true`), yet the capture
buffer already holds all three bytes while the real writer accepted none —
the partial-tee state the claim rules out is observable (it is what
`dumpResponse` will record). -/
theorem sniffer_write_tee_counterexample :
    ((NewResponseSnifferingWriter ⟨[], none, [], some 0⟩).write [1, 2, 3]).2.2 = true ∧
    ((NewResponseSnifferingWriter ⟨[], none, [], some 0⟩).write [1, 2, 3]).1.bytesBuffer
      = [1, 2, 3] ∧
    ((NewResponseSnifferingWriter ⟨[], none, [], some 0⟩).write [1, 2, 3]).1.real.wire
      = [] := by
  decide

/-- C3 amended: each chunk is appended to the capture buffer first and then
forwarded; a forwarding failure propagates to the handler as a write
error, and an error-free write means the real writer accepted the whole
chunk — but on failure the capture buffer retains bytes the real writer
never accepted (the tee is not atomic). -/
theorem sniffer_write_tee_spec (sw : ResponseSnifferingWriter) (b : List Nat) :
    (sw.write b).1.bytesBuffer = sw.bytesBuffer ++ b ∧
    ((sw.real.write b).2.2 = true → (sw.write b).2.2 = true) ∧
    ((sw.write b).2.2 = false → (sw.write b).1.real.wire = sw.real.wire ++ b) := by
  refine ⟨by rw [ResponseSnifferingWriter.write_state], ?_, ?_⟩
  · intro h
    rw [ResponseSnifferingWriter.write_err, h]
    simp
  · intro h
    rw [ResponseSnifferingWriter.write_err] at h
    have herr : (sw.real.write b).2.2 = false := by
      rcases Bool.or_eq_false_iff.mp h with ⟨h1, -⟩
      exact h1
    rw [ResponseSnifferingWriter.write_state]
    simpa using RealWriter.write_success_wire sw.real b herr

/-- Witness for C3's amended statement at a concrete write. -/
theorem sniffer_write_tee_spec_witness :
    ((NewResponseSnifferingWriter ⟨[], none, [], none⟩).write [9]).1.bytesBuffer =
        (NewResponseSnifferingWriter ⟨[], none, [], none⟩).bytesBuffer ++ [9] ∧
    (((NewResponseSnifferingWriter ⟨[], none, [], none⟩).real.write [9]).2.2 = true →
      ((NewResponseSnifferingWriter ⟨[], none, [], none⟩).write [9]).2.2 = true) ∧
    (((NewResponseSnifferingWriter ⟨[], none, [], none⟩).write [9]).2.2 = false →
      ((NewResponseSnifferingWriter ⟨[], none, [], none⟩).write [9]).1.real.wire =
        (NewResponseSnifferingWriter ⟨[], none, [], none⟩).real.wire ++ [9]) :=
  sniffer_write_tee_spec (NewResponseSnifferingWriter ⟨[], none, [], none⟩) [9]

/-- When `dumpResponse` produces a snapshot, its header map is the
flattened header map and its status code is the sniffer's recorded
status, whatever the body decoding did. -/
theorem dumpResponse_some_spec (sw : ResponseSnifferingWriter) (d : ResponseDump)
    (h : dumpResponse sw = some d) :
    d.headers = sw.real.header.map (fun kv => (kv.1, joinValues kv.2)) ∧
    d.statusCode = sw.status := by
  unfold dumpResponse at h
  by_cases hge : sw.real.header.get "Content-Encoding" = "gzip"
  · simp only [hge, if_true] at h
    cases hnr : gzipNewReader sw.bytesBuffer with
    | none => rw [hnr] at h; simp at h
    | some payload =>
      rw [hnr] at h
      simp only [Option.some.injEq] at h
      rw [← h]
      exact ⟨rfl, rfl⟩
  · simp only [hge, if_false, Option.some.injEq] at h
    rw [← h]
    exact ⟨rfl, rfl⟩

/-- When the response declares any `Content-Encoding` other than `gzip`
(including none), `dumpResponse` stores the raw captured bytes. -/
theorem dumpResponse_nongzip (sw : ResponseSnifferingWriter)
    (h : sw.real.header.get "Content-Encoding" ≠ "gzip") :
    dumpResponse sw =
      some { headers := sw.real.header.map (fun kv => (kv.1, joinValues kv.2)),
             body := sw.bytesBuffer, statusCode := sw.status } := by
  unfold dumpResponse
  simp [h]

/-- A handler that never calls `WriteHeader` leaves the sniffer's recorded
status untouched. -/
theorem runHandlerSniffer_status (acts : List HandlerAction) :
    ∀ sw : ResponseSnifferingWriter, (∀ st, HandlerAction.writeHeader st ∉ acts) →
      (runHandlerSniffer acts sw).status = sw.status := by
  induction acts with
  | nil => intro sw _; rfl
  | cons a t ih =>
    intro sw hnw
    have hnt : ∀ st, HandlerAction.writeHeader st ∉ t := by
      intro st hst
      exact hnw st (List.mem_cons_of_mem a hst)
    cases a with
    | setHeader k vs =>
      simpa [runHandlerSniffer, List.foldl] using
        ih { sw with real := { sw.real with header := sw.real.header.set k vs } } hnt
    | writeHeader st => exact absurd (List.mem_cons_self _ _) (fun hm => hnw st hm)
    | write b =>
      have := ih ((sw.write b).1) hnt
      rw [show (runHandlerSniffer (HandlerAction.write b :: t) sw) =
        runHandlerSniffer t ((sw.write b).1) from rfl, this,
        ResponseSnifferingWriter.write_state]

/-- C2 counterexample: a handler that only writes a body (never calling
`WriteHeader`).  The wire carries the underlying writer's default status
200, but the snapshot records status code 0 — not the default success
status the claim requires. -/
theorem statusCode_default_counterexample :
    ((dumpMiddlewareRun [.write [104, 105]] ⟨"GET", "/x", "HTTP/1.1", [], ⟨[], 0⟩⟩
        ⟨[], none, [], none⟩ 0).map
      (fun p => p.2.map fun d => d.response.statusCode)) = some (some 0) ∧
    ((dumpMiddlewareRun [.write [104, 105]] ⟨"GET", "/x", "HTTP/1.1", [], ⟨[], 0⟩⟩
        ⟨[], none, [], none⟩ 0).map (fun p => p.1.sentStatus)) = some (some 200) ∧
    ¬ ((dumpMiddlewareRun [.write [104, 105]] ⟨"GET", "/x", "HTTP/1.1", [], ⟨[], 0⟩⟩
        ⟨[], none, [], none⟩ 0).map
      (fun p => p.2.map fun d => d.response.statusCode)) = some (some 200) := by
  decide

/-- C2 amended: if the downstream handler never calls `WriteHeader`, the
snapshot's status code is 0 — the `Status` field's zero value — rather
than the underlying writer's default success status (which the wire still
carries). -/
theorem statusCode_unset_is_zero (next : List HandlerAction) (r : Request)
    (w : RealWriter) (now : Nat) (w2 : RealWriter) (rec : RoundtripDump)
    (hnw : ∀ st, HandlerAction.writeHeader st ∉ next)
    (hrun : dumpMiddlewareRun next r w now = some (w2, some rec)) :
    rec.response.statusCode = 0 := by
  unfold dumpMiddlewareRun at hrun
  by_cases hm : r.method ≠ "OPTIONS"
  · rw [if_pos hm] at hrun
    dsimp only at hrun
    cases hdr : dumpResponse (runHandlerSniffer next (NewResponseSnifferingWriter w)) with
    | none => rw [hdr] at hrun; simp at hrun
    | some rd =>
      rw [hdr] at hrun
      simp only [Option.some.injEq, Prod.mk.injEq] at hrun
      obtain ⟨-, hrec⟩ := hrun
      obtain ⟨-, hstat⟩ := dumpResponse_some_spec _ _ hdr
      rw [← hrec]
      simp only
      rw [hstat, runHandlerSniffer_status next _ hnw]
      rfl
  · rw [if_neg hm] at hrun
    simp at hrun

/-- Witness for C2's amended statement: a body-only handler yields a
record whose status code is 0. -/
theorem statusCode_unset_is_zero_witness :
    (∀ st, HandlerAction.writeHeader st ∉ [HandlerAction.write [104, 105]]) ∧
    dumpMiddlewareRun [.write [104, 105]] ⟨"GET", "/x", "HTTP/1.1", [], ⟨[], 0⟩⟩
        ⟨[], none, [], none⟩ 0 =
      some (⟨[], some 200, [104, 105], none⟩,
        some ⟨0, ⟨"GET", "/x", "HTTP/1.1", [], []⟩, ⟨[], [104, 105], 0⟩⟩) ∧
    (⟨0, ⟨"GET", "/x", "HTTP/1.1", [], []⟩,
        (⟨[], [104, 105], 0⟩ : ResponseDump)⟩ : RoundtripDump).response.statusCode = 0 :=
  ⟨by intro st hst; simp at hst, by decide,
    statusCode_unset_is_zero [.write [104, 105]] ⟨"GET", "/x", "HTTP/1.1", [], ⟨[], 0⟩⟩
      ⟨[], none, [], none⟩ 0 ⟨[], some 200, [104, 105], none⟩
      ⟨0, ⟨"GET", "/x", "HTTP/1.1", [], []⟩, ⟨[], [104, 105], 0⟩⟩
      (by intro st hst; simp at hst) (by decide)⟩

/-- C1: declared `Content-Encoding: gzip` with a body that is not valid
gzip data.  `gzip.NewReader` fails, the discarded error leaves a nil
reader, and `ioutil.ReadAll(nil)` panics: the request is aborted and no
record is produced (result `none`) — the failure is not swallowed as the
claim states. -/
theorem dumpResponse_gzip_error_panics :
    gzipNewReader [104, 105] = none ∧
    dumpMiddlewareRun [.setHeader "Content-Encoding" ["gzip"], .write [104, 105]]
      ⟨"GET", "/x", "HTTP/1.1", [], ⟨[], 0⟩⟩ ⟨[], none, [], none⟩ 0 = none := by
  decide

/-- C8: OPTIONS requests run the downstream handler on the bare writer and
never produce a record (sink argument `none`); a non-OPTIONS request that
completes always carries exactly one record to the sink — but the
concrete gzip-decode panic input shows a non-OPTIONS request on which the
sink is never invoked at all. -/
theorem dump_middleware_options_and_sink :
    (∀ (next : List HandlerAction) (r : Request) (w : RealWriter) (now : Nat),
      r.method = "OPTIONS" →
        dumpMiddlewareRun next r w now = some (runHandlerReal next w, none)) ∧
    (∀ (next : List HandlerAction) (r : Request) (w : RealWriter) (now : Nat)
        (res : RealWriter × Option RoundtripDump),
      r.method ≠ "OPTIONS" → dumpMiddlewareRun next r w now = some res →
        res.2.isSome = true) ∧
    dumpMiddlewareRun [.setHeader "Content-Encoding" ["gzip"], .write [104, 105]]
      ⟨"GET", "/x", "HTTP/1.1", [], ⟨[], 0⟩⟩ ⟨[], none, [], none⟩ 0 = none := by
  refine ⟨?_, ?_, by decide⟩
  · intro next r w now hm
    unfold dumpMiddlewareRun
    simp [hm]
  · intro next r w now res hm hrun
    unfold dumpMiddlewareRun at hrun
    rw [if_pos hm] at hrun
    dsimp only at hrun
    cases hdr : dumpResponse (runHandlerSniffer next (NewResponseSnifferingWriter w)) with
    | none => rw [hdr] at hrun; simp at hrun
    | some rd =>
      rw [hdr] at hrun
      simp only [Option.some.injEq] at hrun
      rw [← hrun]
      rfl

/-- Witness for C8 at concrete OPTIONS and non-OPTIONS requests. -/
theorem dump_middleware_options_and_sink_witness :
    ((⟨"OPTIONS", "/x", "HTTP/1.1", [], ⟨[], 0⟩⟩ : Request).method = "OPTIONS" ∧
      dumpMiddlewareRun [.write [7]] ⟨"OPTIONS", "/x", "HTTP/1.1", [], ⟨[], 0⟩⟩
          ⟨[], none, [], none⟩ 0 =
        some (runHandlerReal [.write [7]] ⟨[], none, [], none⟩, none)) ∧
    ((⟨"GET", "/x", "HTTP/1.1", [], ⟨[], 0⟩⟩ : Request).method ≠ "OPTIONS" ∧
      ((⟨[], some 200, [104, 105], none⟩, some
          (⟨0, ⟨"GET", "/x", "HTTP/1.1", [], []⟩, ⟨[], [104, 105], 0⟩⟩ : RoundtripDump)) :
        RealWriter × Option RoundtripDump).2.isSome = true) :=
  ⟨⟨rfl, dump_middleware_options_and_sink.1 [.write [7]]
      ⟨"OPTIONS", "/x", "HTTP/1.1", [], ⟨[], 0⟩⟩ ⟨[], none, [], none⟩ 0 rfl⟩,
    ⟨by decide, dump_middleware_options_and_sink.2.1 [.write [104, 105]]
      ⟨"GET", "/x", "HTTP/1.1", [], ⟨[], 0⟩⟩ ⟨[], none, [], none⟩ 0
      (⟨[], some 200, [104, 105], none⟩,
        some ⟨0, ⟨"GET", "/x", "HTTP/1.1", [], []⟩, ⟨[], [104, 105], 0⟩⟩)
      (by decide) (by decide)⟩⟩

/-- A fully valid gzip stream is one `gzip.NewReader` accepts and whose
best-effort read yields exactly the decompressed output. -/
theorem gzipValid_spec (b T : List Nat) (h : gzipValid b = some T) :
    ∃ payload, gzipNewReader b = some payload ∧ gzipReadAll payload = T := by
  unfold gzipValid at h
  cases hnr : gzipNewReader b with
  | none => rw [hnr] at h; simp at h
  | some payload =>
    rw [hnr] at h
    dsimp only at h
    refine ⟨payload, rfl, ?_⟩
    unfold gzipReadAll
    cases hinf : inflate (payload.length + 1) ⟨payload, 0⟩ with
    | mk out rem =>
      rw [hinf] at h
      cases rem with
      | none => simp at h
      | some s =>
        dsimp only at h
        by_cases hbit : s.bit = 0
        · rw [if_pos hbit] at h
          split at h
          · split at h
            · exact Option.some.inj h
            · simp at h
          · simp at h
        · rw [if_neg hbit] at h
          simp at h

/-- A valid gzip capture decodes to its plaintext in the snapshot. -/
theorem dumpResponse_gzip_valid (sw : ResponseSnifferingWriter) (T : List Nat)
    (hge : sw.real.header.get "Content-Encoding" = "gzip")
    (hv : gzipValid sw.bytesBuffer = some T) :
    dumpResponse sw =
      some { headers := sw.real.header.map (fun kv => (kv.1, joinValues kv.2)),
             body := T, statusCode := sw.status } := by
  obtain ⟨payload, hnr, hra⟩ := gzipValid_spec _ T hv
  unfold dumpResponse
  simp [hge, hnr, hra]

/-- The `h[k] = [v]` makes `h.Get(k)` return `v`. -/
theorem Header.get_set_singleton (h : Header) (k v : String) :
    (h.set k [v]).get k = v := by
  simp [Header.get, Header.lookup_set_self]

/-- C6: a handler that declares `Content-Encoding: gzip` and writes a valid
compressed payload P decompressing to T yields a record whose response
body is T while the client wire still carries the compressed P; and for a
sniffer whose response declares any other `Content-Encoding` (including
none), the snapshot body is the raw captured bytes. -/
theorem dumpResponse_gzip_and_identity :
    (∀ (P T : List Nat) (r : Request) (w : RealWriter) (now : Nat),
      r.method ≠ "OPTIONS" → w.acceptLimit = none → w.wire = [] →
      gzipValid P = some T →
      ∃ w2 rec,
        dumpMiddlewareRun [.setHeader "Content-Encoding" ["gzip"], .write P] r w now
          = some (w2, some rec) ∧ w2.wire = P ∧ rec.response.body = T) ∧
    (∀ sw : ResponseSnifferingWriter,
      sw.real.header.get "Content-Encoding" ≠ "gzip" →
      dumpResponse sw =
        some { headers := sw.real.header.map (fun kv => (kv.1, joinValues kv.2)),
               body := sw.bytesBuffer, statusCode := sw.status }) := by
  constructor
  · intro P T r w now hm hal hwire hP
    have hrun0 : runHandlerSniffer [.setHeader "Content-Encoding" ["gzip"], .write P]
        (NewResponseSnifferingWriter w) =
        (ResponseSnifferingWriter.write
          ⟨{ w with header := w.header.set "Content-Encoding" ["gzip"] }, [], 0⟩ P).1 := rfl
    have hstate := ResponseSnifferingWriter.write_state
      ⟨{ w with header := w.header.set "Content-Encoding" ["gzip"] }, [], 0⟩ P
    obtain ⟨hwi, hhd, -, -, -⟩ := RealWriter.write_accept
      { w with header := w.header.set "Content-Encoding" ["gzip"] } P hal
    have hdr : dumpResponse ((ResponseSnifferingWriter.write
        ⟨{ w with header := w.header.set "Content-Encoding" ["gzip"] }, [], 0⟩ P).1) =
        some { headers := (w.header.set "Content-Encoding" ["gzip"]).map
                 (fun kv => (kv.1, joinValues kv.2)),
               body := T, statusCode := 0 } := by
      rw [hstate]
      have := dumpResponse_gzip_valid
        { real := (RealWriter.write { w with header := w.header.set "Content-Encoding" ["gzip"] } P).1,
          bytesBuffer := [] ++ P, status := 0 } T
        (by rw [hhd]; exact Header.get_set_singleton w.header "Content-Encoding" "gzip")
        (by simpa using hP)
      rw [this, hhd]
    refine ⟨(ResponseSnifferingWriter.write
        ⟨{ w with header := w.header.set "Content-Encoding" ["gzip"] }, [], 0⟩ P).1.real,
      ⟨now, (dumpRequest r).1,
        { headers := (w.header.set "Content-Encoding" ["gzip"]).map
            (fun kv => (kv.1, joinValues kv.2)),
          body := T, statusCode := 0 }⟩, ?_, ?_, rfl⟩
    · unfold dumpMiddlewareRun
      rw [if_pos hm]
      dsimp only
      rw [hrun0, hdr]
    · rw [hstate]
      dsimp only
      rw [hwi, hwire]
      rfl
  · intro sw hge
    exact dumpResponse_nongzip sw hge

/-- Witness for C6: the two-byte plaintext `hi` compressed as a gzip
stream with one stored DEFLATE block (gzip-side), and a plain response
with no `Content-Encoding` (identity side). -/
theorem dumpResponse_gzip_and_identity_witness :
    (("GET" : String) ≠ "OPTIONS" ∧
      (⟨[], none, [], none⟩ : RealWriter).acceptLimit = none ∧
      (⟨[], none, [], none⟩ : RealWriter).wire = [] ∧
      gzipValid [0x1f, 0x8b, 8, 0, 0, 0, 0, 0, 0, 0xff,
        0x01, 0x02, 0x00, 0xfd, 0xff, 104, 105, 172, 42, 147, 216, 2, 0, 0, 0]
        = some [104, 105] ∧
      ∃ w2 rec,
        dumpMiddlewareRun [.setHeader "Content-Encoding" ["gzip"],
            .write [0x1f, 0x8b, 8, 0, 0, 0, 0, 0, 0, 0xff,
              0x01, 0x02, 0x00, 0xfd, 0xff, 104, 105, 172, 42, 147, 216, 2, 0, 0, 0]]
          ⟨"GET", "/x", "HTTP/1.1", [], ⟨[], 0⟩⟩ ⟨[], none, [], none⟩ 0
          = some (w2, some rec) ∧
        w2.wire = [0x1f, 0x8b, 8, 0, 0, 0, 0, 0, 0, 0xff,
          0x01, 0x02, 0x00, 0xfd, 0xff, 104, 105, 172, 42, 147, 216, 2, 0, 0, 0] ∧
        rec.response.body = [104, 105]) ∧
    ((⟨⟨[("X", ["y"])], none, [], none⟩, [7, 8], 0⟩ :
        ResponseSnifferingWriter).real.header.get "Content-Encoding" ≠ "gzip" ∧
      dumpResponse (⟨⟨[("X", ["y"])], none, [], none⟩, [7, 8], 0⟩ :
          ResponseSnifferingWriter) =
        some { headers := [("X", ["y"])].map (fun kv => (kv.1, joinValues kv.2)),
               body := [7, 8], statusCode := 0 }) :=
  ⟨⟨by decide, rfl, rfl, by decide,
    dumpResponse_gzip_and_identity.1
      [0x1f, 0x8b, 8, 0, 0, 0, 0, 0, 0, 0xff,
        0x01, 0x02, 0x00, 0xfd, 0xff, 104, 105, 172, 42, 147, 216, 2, 0, 0, 0]
      [104, 105] ⟨"GET", "/x", "HTTP/1.1", [], ⟨[], 0⟩⟩ ⟨[], none, [], none⟩ 0
      (by decide) rfl rfl (by decide)⟩,
   ⟨by decide,
    dumpResponse_gzip_and_identity.2
      (⟨⟨[("X", ["y"])], none, [], none⟩, [7, 8], 0⟩ : ResponseSnifferingWriter)
      (by decide)⟩⟩

/-- The `lookup` after mapping the values of an association list. -/
theorem lookup_map_snd (l : List (String × List String)) (f : List String → String)
    (k : String) :
    (l.map (fun kv => (kv.1, f kv.2))).lookup k = (l.lookup k).map f := by
  induction l with
  | nil => simp
  | cons kv t ih =>
    by_cases hk : k = kv.1
    · simp [List.lookup, hk]
    · simp [List.lookup, beq_eq_false_iff_ne.mpr hk, ih]

/-- The flattening loop writes the same string `String.join` builds: all
values concatenated in order with no separator. -/
theorem joinValues_eq_join (vs : List String) : joinValues vs = String.join vs := rfl

/-- C9: in any produced response snapshot, every response header key is
bound to the concatenation of all of that header's values in order, with
no separator. -/
theorem responseDump_header_flattening (sw : ResponseSnifferingWriter) (d : ResponseDump)
    (h : dumpResponse sw = some d) (k : String) (vs : List String)
    (hk : sw.real.header.lookup k = some vs) :
    d.headers.lookup k = some (String.join vs) := by
  obtain ⟨hh, -⟩ := dumpResponse_some_spec sw d h
  rw [hh, lookup_map_snd, hk]
  simp [joinValues_eq_join]

/-- Witness for C9 at a header with two values. -/
theorem responseDump_header_flattening_witness :
    dumpResponse (⟨⟨[("X", ["a", "b"])], none, [], none⟩, [1], 0⟩ :
        ResponseSnifferingWriter) =
      some ⟨[("X", "ab")], [1], 0⟩ ∧
    (⟨⟨[("X", ["a", "b"])], none, [], none⟩, [1], 0⟩ :
        ResponseSnifferingWriter).real.header.lookup "X" = some ["a", "b"] ∧
    (⟨[("X", "ab")], [1], 0⟩ : ResponseDump).headers.lookup "X"
      = some (String.join ["a", "b"]) :=
  ⟨by decide, by decide,
    responseDump_header_flattening
      (⟨⟨[("X", ["a", "b"])], none, [], none⟩, [1], 0⟩ : ResponseSnifferingWriter)
      ⟨[("X", "ab")], [1], 0⟩ (by decide) "X" ["a", "b"] (by decide)⟩

/-- C7: under the response overlay `{Access-Control-Allow-Origin: *}`, a
request with `Origin: https://example.com` finalizes with
`Access-Control-Allow-Origin: https://example.com` (the request's origin,
not the asterisk), and — when no `Access-Control-Allow-Headers` was
otherwise set — `Access-Control-Allow-Headers: *` is injected. -/
theorem rewrite_origin_echo (r : Request) (w : RealWriter) (code : Nat)
    (hOrigin : r.header.getList "Origin" = ["https://example.com"])
    (hACAH : w.header.getList "Access-Control-Allow-Headers" = []) :
    ((RewriteResponseWriter.writeHeader
        ⟨w, castToHeaderForRequest [("Access-Control-Allow-Origin", "*")] r⟩
        code).real.header.getList "Access-Control-Allow-Origin"
      = ["https://example.com"]) ∧
    ((RewriteResponseWriter.writeHeader
        ⟨w, castToHeaderForRequest [("Access-Control-Allow-Origin", "*")] r⟩
        code).real.header.getList "Access-Control-Allow-Headers" = ["*"]) := by
  have hcast : castToHeaderForRequest [("Access-Control-Allow-Origin", "*")] r
      = [("Access-Control-Allow-Origin", ["https://example.com"])] := by
    rw [show castToHeaderForRequest [("Access-Control-Allow-Origin", "*")] r
        = [("Access-Control-Allow-Origin", r.header.getList "Origin")] from rfl, hOrigin]
  have hACAO0 : (w.header.set "Access-Control-Allow-Origin"
      ["https://example.com"]).getList "Access-Control-Allow-Origin"
      = ["https://example.com"] := Header.getList_set_self _ _ _
  have hACAH0 : (w.header.set "Access-Control-Allow-Origin"
      ["https://example.com"]).getList "Access-Control-Allow-Headers" = [] := by
    rw [Header.getList_set_other _ _ _ _ (by decide)]
    exact hACAH
  have hfinal : (RewriteResponseWriter.writeHeader
      ⟨w, castToHeaderForRequest [("Access-Control-Allow-Origin", "*")] r⟩
      code).real.header =
      (w.header.set "Access-Control-Allow-Origin" ["https://example.com"]).set
        "Access-Control-Allow-Headers" ["*"] := by
    unfold RewriteResponseWriter.writeHeader
    dsimp only
    rw [hcast]
    dsimp only [List.foldl]
    rw [if_pos (by rw [hACAO0, hACAH0]; exact ⟨by decide, rfl⟩),
      RealWriter.writeHeader_header]
  constructor
  · rw [hfinal, Header.getList_set_other _ _ _ _ (by decide), hACAO0]
  · rw [hfinal, Header.getList_set_self]

/-- Witness for C7 at a concrete request and fresh writer. -/
theorem rewrite_origin_echo_witness :
    (⟨"GET", "/x", "HTTP/1.1", [("Origin", ["https://example.com"])], ⟨[], 0⟩⟩ :
        Request).header.getList "Origin" = ["https://example.com"] ∧
    (⟨[], none, [], none⟩ : RealWriter).header.getList "Access-Control-Allow-Headers"
      = [] ∧
    (((RewriteResponseWriter.writeHeader
        ⟨⟨[], none, [], none⟩, castToHeaderForRequest
          [("Access-Control-Allow-Origin", "*")]
          ⟨"GET", "/x", "HTTP/1.1", [("Origin", ["https://example.com"])], ⟨[], 0⟩⟩⟩
        200).real.header.getList "Access-Control-Allow-Origin"
      = ["https://example.com"]) ∧
    ((RewriteResponseWriter.writeHeader
        ⟨⟨[], none, [], none⟩, castToHeaderForRequest
          [("Access-Control-Allow-Origin", "*")]
          ⟨"GET", "/x", "HTTP/1.1", [("Origin", ["https://example.com"])], ⟨[], 0⟩⟩⟩
        200).real.header.getList "Access-Control-Allow-Headers" = ["*"])) :=
  ⟨by decide, rfl,
    rewrite_origin_echo
      ⟨"GET", "/x", "HTTP/1.1", [("Origin", ["https://example.com"])], ⟨[], 0⟩⟩
      ⟨[], none, [], none⟩ 200 (by decide) rfl⟩

/-- C10: under the same overlay, a request with no `Origin` header puts the
empty value list into the overlay entry, so the finalized response carries
no `Access-Control-Allow-Origin` value and the
`Access-Control-Allow-Headers: *` injection does not fire. -/
theorem rewrite_no_origin (r : Request) (w : RealWriter) (code : Nat)
    (hOrigin : r.header.lookup "Origin" = none) :
    castToHeaderForRequest [("Access-Control-Allow-Origin", "*")] r
      = [("Access-Control-Allow-Origin", [])] ∧
    ((RewriteResponseWriter.writeHeader
        ⟨w, castToHeaderForRequest [("Access-Control-Allow-Origin", "*")] r⟩
        code).real.header.getList "Access-Control-Allow-Origin" = []) ∧
    ((RewriteResponseWriter.writeHeader
        ⟨w, castToHeaderForRequest [("Access-Control-Allow-Origin", "*")] r⟩
        code).real.header.getList "Access-Control-Allow-Headers"
      = w.header.getList "Access-Control-Allow-Headers") := by
  have hOriginList : r.header.getList "Origin" = [] := by
    simp [Header.getList, hOrigin]
  have hcast : castToHeaderForRequest [("Access-Control-Allow-Origin", "*")] r
      = [("Access-Control-Allow-Origin", [])] := by
    rw [show castToHeaderForRequest [("Access-Control-Allow-Origin", "*")] r
        = [("Access-Control-Allow-Origin", r.header.getList "Origin")] from rfl, hOriginList]
  have hACAO0 : (w.header.set "Access-Control-Allow-Origin" []).getList
      "Access-Control-Allow-Origin" = [] := Header.getList_set_self _ _ _
  have hfinal : (RewriteResponseWriter.writeHeader
      ⟨w, castToHeaderForRequest [("Access-Control-Allow-Origin", "*")] r⟩
      code).real.header = w.header.set "Access-Control-Allow-Origin" [] := by
    unfold RewriteResponseWriter.writeHeader
    dsimp only
    rw [hcast]
    dsimp only [List.foldl]
    rw [if_neg (by rw [hACAO0]; simp), RealWriter.writeHeader_header]
  refine ⟨hcast, ?_, ?_⟩
  · rw [hfinal, hACAO0]
  · rw [hfinal, Header.getList_set_other _ _ _ _ (by decide)]

/-- Witness for C10 at a request with no headers at all. -/
theorem rewrite_no_origin_witness :
    (⟨"GET", "/x", "HTTP/1.1", [], ⟨[], 0⟩⟩ : Request).header.lookup "Origin" = none ∧
    (castToHeaderForRequest [("Access-Control-Allow-Origin", "*")]
        ⟨"GET", "/x", "HTTP/1.1", [], ⟨[], 0⟩⟩
      = [("Access-Control-Allow-Origin", [])] ∧
    ((RewriteResponseWriter.writeHeader
        ⟨⟨[("Access-Control-Allow-Headers", ["X-Seen"])], none, [], none⟩,
          castToHeaderForRequest [("Access-Control-Allow-Origin", "*")]
            ⟨"GET", "/x", "HTTP/1.1", [], ⟨[], 0⟩⟩⟩
        200).real.header.getList "Access-Control-Allow-Origin" = []) ∧
    ((RewriteResponseWriter.writeHeader
        ⟨⟨[("Access-Control-Allow-Headers", ["X-Seen"])], none, [], none⟩,
          castToHeaderForRequest [("Access-Control-Allow-Origin", "*")]
            ⟨"GET", "/x", "HTTP/1.1", [], ⟨[], 0⟩⟩⟩
        200).real.header.getList "Access-Control-Allow-Headers"
      = (⟨[("Access-Control-Allow-Headers", ["X-Seen"])], none, [], none⟩ :
          RealWriter).header.getList "Access-Control-Allow-Headers")) :=
  ⟨rfl,
    rewrite_no_origin ⟨"GET", "/x", "HTTP/1.1", [], ⟨[], 0⟩⟩
      ⟨[("Access-Control-Allow-Headers", ["X-Seen"])], none, [], none⟩ 200 rfl⟩

end Middlewares
